import Mathlib

/-!
Verification of the reconciliation engine of `do_dyndns`, a dynamic-DNS
updater for DigitalOcean Domains.  The Rust sources (`src/main.rs`,
`src/ip.rs`, `src/api.rs`) are shallowly embedded below: pure data flow is
translated to Lean functions, the network side effects (provider API calls
and log lines) are recorded in an explicit event trace, and fallible code
returns `Except`.
-/

namespace DoDyndns

/-- Mirrors `DomainRecord` from `src/api.rs`: a record as reported by the
provider.  `kind` is the JSON field named `type`. -/
structure DomainRecord where
  id : Int
  name : String
  data : String
  ttl : Int
  kind : String
  deriving DecidableEq, Repr

/-- The command-line arguments of `src/main.rs` (`struct Args`) that the
reconciliation logic reads. -/
structure Args where
  dry_run : Bool
  once : Bool
  ipv4 : Bool
  ipv6 : Bool
  sleep_interval : Nat
  ttl : Nat
  subdomain : String
  domain : String
  deriving DecidableEq, Repr

/-- Classification of one reconciliation pass, observable in the log output
of `handle_record` in `src/main.rs`: `Created` corresponds to the
"Creating new {kind} record" branch, `Updated` to "Updating existing
{kind} record", and `Skip` to "{kind} record is up to date". -/
inductive Action where
  | Created
  | Updated
  | Skip
  deriving DecidableEq, Repr

/-- Observable events of one run: provider API calls issued and log lines
emitted, in order.  `getRecords` records the GET issued by
`ApiClient::get_records`, `createCall`/`updateCall` the POST/PUT bodies of
`ApiClient::create_record`/`update_record`; the `log...` constructors
record the fields carried by the corresponding `log::info!`/`log::warn!`
lines of `src/main.rs`; `cycleRun`, `logError` and `sleepBetween` record
the loop body of `main`. -/
inductive Event where
  | getRecords (domain : String) (perPage : Option Nat) (kind : Option String)
      (name : Option String)
  | createCall (domain name kind data : String) (ttl : Nat)
  | updateCall (domain : String) (id : Int) (name kind data : String) (ttl : Nat)
  | logCreating (kind : String)
  | logUpdating (kind : String)
  | logUpToDate (kind : String)
  | logWouldCreate (name kind data : String) (ttl : Nat)
  | logWouldUpdate (name kind data : String) (ttl : Nat)
  | logNewAddress (kind addr : String)
  | logWarnNoAddress (kind : String)
  | cycleRun (n : Nat)
  | logError (msg : String)
  | sleepBetween
  deriving DecidableEq, Repr

/-- True exactly on the write calls (create or update) of a trace. -/
def isWrite : Event → Bool
  | .createCall _ _ _ _ _ => true
  | .updateCall _ _ _ _ _ _ => true
  | _ => false

/-- The write calls (create or update) contained in a trace, in order. -/
def writesOf (tr : List Event) : List Event :=
  tr.filter isWrite

/-- Embeds `create_record` from `src/main.rs` (lines 192-212): logs
"Creating new {kind} record"; in dry-run mode it only logs the fields that
would have been sent, otherwise it issues the POST.  The transport outcome
of a live write is abstracted as success, since the claims under
verification concern the calls issued and the branch classification. -/
def create_record (args : Args) (name kind data : String) (ttl : Nat) :
    List Event :=
  if args.dry_run then
    [Event.logCreating kind, Event.logWouldCreate name kind data ttl]
  else
    [Event.logCreating kind, Event.createCall args.domain name kind data ttl]

/-- Embeds `update_record` from `src/main.rs` (lines 214-235).  The
dry-run branch logs the caller's `name` and `kind` as given.  The live
branch, however, calls `ApiClient::update_record(domain, id, kind, name,
data, ttl)` (`src/api.rs` lines 109-116) as
`client.update_record(&args.domain, id, name, kind, data, ttl)`
(`src/main.rs` line 229), so the caller's `name` lands in the client's
`kind` parameter and vice versa: the PUT body actually sent — recorded
here as the `updateCall` event, whose `name`/`kind` slots are the JSON
`name`/`type` fields of the body — carries the record type in `name` and
the subdomain in `type`. -/
def update_record (args : Args) (id : Int) (name kind data : String)
    (ttl : Nat) : List Event :=
  if args.dry_run then
    [Event.logUpdating kind, Event.logWouldUpdate name kind data ttl]
  else
    [Event.logUpdating kind, Event.updateCall args.domain id kind name data ttl]

/-- The `name_filter` local of `handle_record` (`src/main.rs` lines
154-157): the provider-side name filter is the bare domain for the apex
sentinel `@`, otherwise the domain-qualified subdomain. -/
def recordNameFilter (args : Args) : Option String :=
  if args.subdomain = "@" then some args.domain
  else some (args.subdomain ++ "." ++ args.domain)

/-- The GET issued by `handle_record` through `ApiClient::get_records`
(`src/main.rs` lines 158-161): page size 200, kind filter, name filter. -/
def listRecordsEvent (args : Args) (kind : String) : Event :=
  Event.getRecords args.domain (some 200) (some kind) (recordNameFilter args)

/-- The local filter of `handle_record` (`src/main.rs` line 163): keep the
returned records whose `name` equals the subdomain exactly. -/
def localNameFilter (args : Args) (records : List DomainRecord) :
    List DomainRecord :=
  records.filter (fun r => r.name == args.subdomain)

/-- Embeds `handle_record` from `src/main.rs` (lines 153-190).  `records`
is the list returned by the provider for the GET recorded as
`listRecordsEvent`; the branch is chosen by the length of the locally
filtered list, exactly as the Rust `match records.len()`. -/
def handle_record (args : Args) (kind addr : String)
    (records : List DomainRecord) : Except String Action × List Event :=
  let ev0 := listRecordsEvent args kind
  let name := args.subdomain
  let data := addr
  let ttl := args.ttl
  match localNameFilter args records with
  | [] => (.ok .Created, ev0 :: create_record args name kind data ttl)
  | [record] =>
      if record.data == data then
        (.ok .Skip, [ev0, Event.logUpToDate kind])
      else
        (.ok .Updated, ev0 :: update_record args record.id name kind data ttl)
  | _ => (.error ("More than one " ++ kind ++ " record found"), [ev0])

/-! String containment, used to state that an error message does or does
not mention a given field. -/

/-- Whether the first character list is a prefix of the second. -/
def isPrefixChars : List Char → List Char → Bool
  | [], _ => true
  | _ :: _, [] => false
  | a :: as, b :: bs => a == b && isPrefixChars as bs

/-- Whether `needle` occurs as a contiguous segment of the first list. -/
def containsChars : List Char → List Char → Bool
  | [], needle => needle.isEmpty
  | h :: t, needle => isPrefixChars needle (h :: t) || containsChars t needle

/-- Whether `needle` occurs as a substring of `haystack`. -/
def strContains (haystack needle : String) : Bool :=
  containsChars haystack.toList needle.toList

/-! Discovery (`src/ip.rs`).  The generic address parser (`Addr: FromStr`
in Rust) and the HTTP transport are parameters: `fetch` maps an endpoint
to `none` on a transport failure and otherwise to the lines of the
response body (`.text()` followed by `str::lines`). -/

/-- The fixed ordered endpoint list `PROVIDERS` of `src/ip.rs`. -/
def PROVIDERS : List String := ["https://ifconfig.me", "https://ifconfig.co"]

/-- Embeds `try_get_ip` from `src/ip.rs` (lines 56-75): a transport failure
is an error; otherwise the first response-body line accepted by `parse`
is returned, or `none` when no line parses. -/
def try_get_ip {α : Type} (parse : String → Option α)
    (body : Option (List String)) : Except String (Option α) :=
  match body with
  | none => .error "Failed to send GET request (get_ips)"
  | some lines => .ok (lines.findSome? parse)

/-- One provider step for one address family inside the loop of `get_ips`:
if the family is wanted and still unfound, query the endpoint and keep a
successful parse; errors are swallowed (logged at debug level in Rust). -/
def familyStep {α : Type} (want : Bool) (parse : String → Option α)
    (fetch : String → Option (List String)) (p : String) (acc : Option α) :
    Option α :=
  if want && acc.isNone then
    match try_get_ip parse (fetch p) with
    | .ok (some a) => some a
    | _ => acc
  else acc

/-- The endpoint loop of `get_ips` from `src/ip.rs` (lines 30-51), also
returning the list of endpoints visited so that early stopping is
observable.  After each endpoint the Rust loop breaks once every wanted
family has been satisfied. -/
def get_ips_loop {α β : Type} (want4 want6 : Bool)
    (parse4 : String → Option α) (parse6 : String → Option β)
    (fetch4 fetch6 : String → Option (List String)) :
    List String → Option α → Option β →
      Option α × Option β × List String
  | [], acc4, acc6 => (acc4, acc6, [])
  | p :: rest, acc4, acc6 =>
    let acc4 := familyStep want4 parse4 fetch4 p acc4
    let acc6 := familyStep want6 parse6 fetch6 p acc6
    if (want4 == acc4.isSome) && (want6 == acc6.isSome) then
      (acc4, acc6, [p])
    else
      let r := get_ips_loop want4 want6 parse4 parse6 fetch4 fetch6 rest acc4 acc6
      (r.1, r.2.1, p :: r.2.2)

/-- Embeds `get_ips` from `src/ip.rs` (lines 12-54).  The Rust function has
return type `Result` but every path returns `Ok`; the `Except` layer is
kept to state that fact. -/
def get_ips {α β : Type} (want4 want6 : Bool)
    (parse4 : String → Option α) (parse6 : String → Option β)
    (fetch4 fetch6 : String → Option (List String)) :
    Except String (Option α × Option β × List String) :=
  .ok (get_ips_loop want4 want6 parse4 parse6 fetch4 fetch6 PROVIDERS none none)

/-- Specification-side characterisation of discovery for one family, from
the claim's words: the address parsed from the first response-body line
that parses, from the first endpoint in the ordered list that yields one;
transport failures contribute nothing; no yield at all is absence. -/
def discoveryFirstHit {α : Type} (parse : String → Option α)
    (fetch : String → Option (List String)) (providers : List String) :
    Option α :=
  providers.findSome? fun p => (fetch p).bind fun lines => lines.findSome? parse

/-! A concrete IPv4 literal parser, modelled from Rust std's
`Ipv4Addr::from_str` (four decimal octets separated by dots, each in
0..=255, no leading zeros).  It instantiates the generic `Addr: FromStr`
parameter of `try_get_ip` in concrete witnesses. -/

/-- Splits a character list on the dot character. -/
def splitOnDot : List Char → List (List Char)
  | [] => [[]]
  | c :: cs =>
    if c == '.' then [] :: splitOnDot cs
    else
      match splitOnDot cs with
      | [] => [[c]]
      | p :: ps => (c :: p) :: ps

/-- Parses one decimal octet: nonempty, all digits, no leading zero,
value at most 255. -/
def parseOctet (cs : List Char) : Option Nat :=
  if cs.isEmpty then none
  else if !cs.all Char.isDigit then none
  else if decide (1 < cs.length) && cs.head? == some '0' then none
  else
    let n := cs.foldl (fun acc c => acc * 10 + (c.toNat - 48)) 0
    if n ≤ 255 then some n else none

/-- Parses a dotted-quad IPv4 literal. -/
def parseIpv4 (s : String) : Option (Nat × Nat × Nat × Nat) :=
  match splitOnDot s.toList with
  | [a, b, c, d] =>
    match parseOctet a, parseOctet b, parseOctet c, parseOctet d with
    | some a, some b, some c, some d => some (a, b, c, d)
    | _, _, _, _ => none
  | _ => none

/-! The per-cycle driver `dyndns` (`src/main.rs` lines 91-139).  Discovery
output is passed in as the two optional addresses (already stringified, as
`handle_record` receives them); the provider listing results for the A and
AAAA queries are passed in as lists. -/

/-- Result of one `dyndns` cycle: its `Result<()>`, the values of the two
`last_*` mutable borrows on return, and the event trace. -/
structure DynResult where
  res : Except String Unit
  last4 : Option String
  last6 : Option String
  trace : List Event
  deriving Repr

/-- One per-family block of `dyndns` (`src/main.rs` lines 114-124 for the
A record, 126-136 for the AAAA record; the source spells the block out
twice with the kind fixed, this definition takes the kind as a
parameter).  If the family is enabled and its discovered address differs
from the remembered one: on a present address, log it and run
`handle_record`, propagating a failure with the family's context string
and yielding the new remembered address only on success; on an absent
address, log a warning and keep the remembered address (dead in context:
`dyndns` has already bailed in that case). -/
def family_block (args : Args) (kind : String) (addr last : Option String)
    (records : List DomainRecord) (enabled : Bool) :
    Except String (Option String) × List Event :=
  if enabled && !(addr == last) then
    match addr with
    | some a =>
      let h := handle_record args kind a records
      match h.1 with
      | .error e =>
          (.error ("Failed to update or create " ++ kind ++ " record: " ++ e),
            Event.logNewAddress kind a :: h.2)
      | .ok _ => (.ok (some a), Event.logNewAddress kind a :: h.2)
    | none => (.ok last, [Event.logWarnNoAddress kind])
  else (.ok last, [])

/-- Embeds `dyndns` from `src/main.rs` (lines 91-139): bail when an
enabled family's address is absent; then run the A-record block and, only
if it did not fail, the AAAA-record block, each updating its remembered
address on success. -/
def dyndns (args : Args) (ipv4 ipv6 : Option String)
    (recordsA recordsAAAA : List DomainRecord)
    (last4 last6 : Option String) : DynResult :=
  if args.ipv4 && ipv4.isNone then
    ⟨.error "No IPv4 address found", last4, last6, []⟩
  else if args.ipv6 && ipv6.isNone then
    ⟨.error "No IPv6 address found", last4, last6, []⟩
  else
    let aStep := family_block args "A" ipv4 last4 recordsA args.ipv4
    match aStep.1 with
    | .error e => ⟨.error e, last4, last6, aStep.2⟩
    | .ok newLast4 =>
      let bStep := family_block args "AAAA" ipv6 last6 recordsAAAA args.ipv6
      match bStep.1 with
      | .error e => ⟨.error e, newLast4, last6, aStep.2 ++ bStep.2⟩
      | .ok newLast6 => ⟨.ok (), newLast4, newLast6, aStep.2 ++ bStep.2⟩

/-! The outer loop of `main` (`src/main.rs` lines 76-86).  The per-cycle
inputs (discovered addresses and provider listings) are supplied by an
oracle indexed by cycle number; the loop itself is observed for a given
number of iterations (`fuel`), since the Rust loop is unbounded in
continuous mode. -/

/-- The per-cycle environment: what discovery and the provider listing
return during that cycle. -/
structure CycleInput where
  ipv4 : Option String
  ipv6 : Option String
  recordsA : List DomainRecord
  recordsAAAA : List DomainRecord

/-- The loop-local state: the two `last_*` variables of `main`. -/
structure LoopState where
  last4 : Option String
  last6 : Option String
  deriving DecidableEq, Repr

/-- Embeds the `loop` of `main` (`src/main.rs` lines 76-86): run `dyndns`,
log its error if any, then break if `--once` was given, otherwise sleep
and continue with the next cycle.  `n` is the index of the current cycle,
recorded in the trace as `cycleRun n`. -/
def main_loop (args : Args) (oracle : Nat → CycleInput) :
    Nat → Nat → LoopState → LoopState × List Event
  | 0, _, st => (st, [])
  | fuel + 1, n, st =>
    let c := oracle n
    let d := dyndns args c.ipv4 c.ipv6 c.recordsA c.recordsAAAA st.last4 st.last6
    let errEvs : List Event :=
      match d.res with
      | .error e => [Event.logError e]
      | .ok _ => []
    let st' : LoopState := ⟨d.last4, d.last6⟩
    if args.once then
      (st', Event.cycleRun n :: (d.trace ++ errEvs))
    else
      let r := main_loop args oracle fuel (n + 1) st'
      (r.1, Event.cycleRun n :: (d.trace ++ errEvs ++ Event.sleepBetween :: r.2))

/-- Counts the loop iterations recorded in a trace. -/
def countCycles (tr : List Event) : Nat :=
  tr.countP fun e => match e with | .cycleRun _ => true | _ => false

/-- Counts the provider listing calls for a given record kind in a trace;
one such call is issued each time `handle_record` runs for that kind. -/
def countGet (kind : String) (tr : List Event) : Nat :=
  tr.countP fun e =>
    match e with
    | .getRecords _ _ k _ => k == some kind
    | _ => false

/-! Response decoding of the provider client (`src/api.rs`).  Response
bodies are modelled as JSON values; `serde(untagged)` deserialisation
tries the variants in declaration order and, as serde does by default,
ignores unknown object fields. -/

/-- A JSON value, as far as the decoding in `src/api.rs` needs it. -/
inductive Json where
  | str (s : String)
  | num (n : Int)
  | arr (xs : List Json)
  | obj (fields : List (String × Json))
  | null
  deriving Repr

/-- Looks up a field of a JSON object; `none` for non-objects or missing
fields. -/
def jsonField (j : Json) (key : String) : Option Json :=
  match j with
  | .obj fields => fields.lookup key
  | _ => none

/-- Decodes a JSON string. -/
def decodeString : Json → Option String
  | .str s => some s
  | _ => none

/-- Decodes a JSON number into an integer. -/
def decodeInt : Json → Option Int
  | .num n => some n
  | _ => none

/-- Decodes `DomainRecord` from `src/api.rs`: requires the fields `id`,
`name`, `data`, `ttl` and `type` (renamed to `kind`), ignoring others. -/
def decodeDomainRecord (j : Json) : Option DomainRecord := do
  let i ← decodeInt (← jsonField j "id")
  let n ← decodeString (← jsonField j "name")
  let d ← decodeString (← jsonField j "data")
  let t ← decodeInt (← jsonField j "ttl")
  let k ← decodeString (← jsonField j "type")
  pure ⟨i, n, d, t, k⟩

/-- The `serde(untagged)` enum `DomainRecordResponse` of `src/api.rs`
(lines 5-10). -/
inductive DomainRecordResponse where
  | Ok (domain_record : DomainRecord)
  | Error (id : String) (message : String)
  deriving Repr

/-- Untagged deserialisation of `DomainRecordResponse`: the `Ok` variant
(an object with a decodable `domain_record` field) is tried first, then
the `Error` variant (string fields `id` and `message`). -/
def decodeDomainRecordResponse (j : Json) : Option DomainRecordResponse :=
  match (jsonField j "domain_record").bind decodeDomainRecord with
  | some r => some (.Ok r)
  | none =>
    match (jsonField j "id").bind decodeString,
        (jsonField j "message").bind decodeString with
    | some i, some m => some (.Error i m)
    | _, _ => none

/-- The `serde(untagged)` enum `DomainRecordsResponse` of `src/api.rs`
(lines 12-26). -/
inductive DomainRecordsResponse where
  | Ok (domain_records : List DomainRecord)
  | Error (id : String) (message : String)
  deriving Repr

/-- Decodes a JSON array of domain records; every element must decode. -/
def decodeRecordList : Json → Option (List DomainRecord)
  | .arr xs => xs.mapM decodeDomainRecord
  | _ => none

/-- Untagged deserialisation of `DomainRecordsResponse`: the `Ok` variant
needs a decodable `domain_records` array plus the `links` and `meta`
fields (both decoded as arbitrary JSON but required to be present), then
the `Error` variant is tried. -/
def decodeDomainRecordsResponse (j : Json) : Option DomainRecordsResponse :=
  match (jsonField j "domain_records").bind decodeRecordList,
      jsonField j "links", jsonField j "meta" with
  | some rs, some _, some _ => some (.Ok rs)
  | _, _, _ =>
    match (jsonField j "id").bind decodeString,
        (jsonField j "message").bind decodeString with
    | some i, some m => some (.Error i m)
    | _, _ => none

/-- The response handling of `ApiClient::update_record` in `src/api.rs`
(lines 137-142), applied to a received body: an undecodable body is a
parse failure (its context string is copied verbatim from the source,
including its misnaming of the operation), the `Ok` variant yields the
record, the `Error` variant fails with "{id}: {message}". -/
def update_record_response (body : Json) : Except String DomainRecord :=
  match decodeDomainRecordResponse body with
  | none => .error "Failed to parse PUT response (create_record)"
  | some (.Ok r) => .ok r
  | some (.Error i m) => .error (i ++ ": " ++ m)

/-- The response handling of `ApiClient::create_record` in `src/api.rs`
(lines 172-177), analogous to `update_record_response`. -/
def create_record_response (body : Json) : Except String DomainRecord :=
  match decodeDomainRecordResponse body with
  | none => .error "Failed to parse POST response (create_record)"
  | some (.Ok r) => .ok r
  | some (.Error i m) => .error (i ++ ": " ++ m)

/-- The response handling of `ApiClient::get_records` in `src/api.rs`
(lines 101-106). -/
def get_records_response (body : Json) : Except String (List DomainRecord) :=
  match decodeDomainRecordsResponse body with
  | none => .error "Failed to parse GET response (get_records)"
  | some (.Ok rs) => .ok rs
  | some (.Error i m) => .error (i ++ ": " ++ m)

/-! Helper lemmas. -/

theorem isPrefixChars_refl (l : List Char) : isPrefixChars l l = true := by
  induction l with
  | nil => rfl
  | cons a as ih => simp [isPrefixChars, ih]

theorem isPrefixChars_append (l t : List Char) :
    isPrefixChars l (l ++ t) = true := by
  induction l with
  | nil => rfl
  | cons a as ih => simp [isPrefixChars, ih]

theorem containsChars_of_prefixChars (h n : List Char)
    (hp : isPrefixChars n h = true) : containsChars h n = true := by
  cases h with
  | nil =>
    cases n with
    | nil => rfl
    | cons b bs => simp [isPrefixChars] at hp
  | cons x t => simp [containsChars, hp]

theorem containsChars_cons (x : Char) (t n : List Char)
    (hc : containsChars t n = true) : containsChars (x :: t) n = true := by
  simp [containsChars, hc]

theorem containsChars_append_left (s t n : List Char)
    (hc : containsChars t n = true) : containsChars (s ++ t) n = true := by
  induction s with
  | nil => simpa using hc
  | cons x xs ih => simpa using containsChars_cons x (xs ++ t) n ih

theorem strContains_of_prefix_str (a b : String) :
    strContains (a ++ b) a = true := by
  unfold strContains
  exact containsChars_of_prefixChars _ _ (by
    show isPrefixChars a.toList (a.toList ++ b.toList) = true
    exact isPrefixChars_append _ _)

theorem strContains_of_suffix_str (a b : String) :
    strContains (a ++ b) b = true := by
  unfold strContains
  show containsChars (a.toList ++ b.toList) b.toList = true
  exact containsChars_append_left _ _ _
    (containsChars_of_prefixChars _ _ (isPrefixChars_refl _))

theorem strContains_of_middle_str (a b c : String) :
    strContains (a ++ b ++ c) b = true := by
  unfold strContains
  show containsChars (a.toList ++ b.toList ++ c.toList) b.toList = true
  rw [List.append_assoc]
  exact containsChars_append_left _ _ _
    (containsChars_of_prefixChars _ _ (isPrefixChars_append _ _))

theorem strContains_of_first_str (a b c : String) :
    strContains (a ++ b ++ c) a = true := by
  unfold strContains
  show containsChars (a.toList ++ b.toList ++ c.toList) a.toList = true
  rw [List.append_assoc]
  exact containsChars_of_prefixChars _ _ (isPrefixChars_append _ _)

/-- Under the guarantee that every listed record has the desired kind (the
provider listing was filtered by `type`), the local name-only filter of
`handle_record` agrees with the (name, kind) match of the specification. -/
theorem filter_name_eq_filter_name_kind (records : List DomainRecord)
    (sub kind : String) (hk : ∀ r ∈ records, r.kind = kind) :
    records.filter (fun r => r.name == sub) =
      records.filter (fun r => r.name == sub && r.kind == kind) := by
  apply List.filter_congr
  intro r hr
  simp [hk r hr]

theorem handle_record_eq_nil (args : Args) (kind addr : String)
    (records : List DomainRecord) (h : localNameFilter args records = []) :
    handle_record args kind addr records =
      (.ok .Created, listRecordsEvent args kind ::
        create_record args args.subdomain kind addr args.ttl) := by
  unfold handle_record
  rw [h]

theorem handle_record_eq_one_same (args : Args) (kind addr : String)
    (records : List DomainRecord) (r : DomainRecord)
    (h : localNameFilter args records = [r]) (hd : (r.data == addr) = true) :
    handle_record args kind addr records =
      (.ok .Skip, [listRecordsEvent args kind, Event.logUpToDate kind]) := by
  unfold handle_record
  rw [h]
  simp [hd]

theorem handle_record_eq_one_diff (args : Args) (kind addr : String)
    (records : List DomainRecord) (r : DomainRecord)
    (h : localNameFilter args records = [r]) (hd : (r.data == addr) = false) :
    handle_record args kind addr records =
      (.ok .Updated, listRecordsEvent args kind ::
        update_record args r.id args.subdomain kind addr args.ttl) := by
  unfold handle_record
  rw [h]
  simp [hd]

theorem handle_record_eq_many (args : Args) (kind addr : String)
    (records : List DomainRecord) (r1 r2 : DomainRecord)
    (rs : List DomainRecord)
    (h : localNameFilter args records = r1 :: r2 :: rs) :
    handle_record args kind addr records =
      (.error ("More than one " ++ kind ++ " record found"),
        [listRecordsEvent args kind]) := by
  unfold handle_record
  rw [h]

/-- The trace of `handle_record` holds exactly one listing call, for its
own kind, and no other listing call. -/
theorem countGet_handle_record (args : Args) (kind kind' addr : String)
    (records : List DomainRecord) :
    countGet kind' (handle_record args kind addr records).2 =
      if kind == kind' then 1 else 0 := by
  rcases h : localNameFilter args records with - | ⟨r, - | ⟨r2, rs⟩⟩
  · rw [handle_record_eq_nil args kind addr records h]
    cases hdr : args.dry_run <;> by_cases hkk : kind = kind' <;>
      simp [countGet, create_record, hdr, listRecordsEvent, hkk]
  · cases hd : r.data == addr
    · rw [handle_record_eq_one_diff args kind addr records r h hd]
      cases hdr : args.dry_run <;> by_cases hkk : kind = kind' <;>
        simp [countGet, update_record, hdr, listRecordsEvent, hkk]
    · rw [handle_record_eq_one_same args kind addr records r h hd]
      by_cases hkk : kind = kind' <;> simp [countGet, listRecordsEvent, hkk]
  · rw [handle_record_eq_many args kind addr records r r2 rs h]
    by_cases hkk : kind = kind' <;> simp [countGet, listRecordsEvent, hkk]

/-- A family block whose guard is off (family disabled or address
unchanged) does nothing. -/
theorem family_block_off (args : Args) (kind : String)
    (addr last : Option String) (records : List DomainRecord)
    (enabled : Bool) (h : (enabled && !(addr == last)) = false) :
    family_block args kind addr last records enabled = (.ok last, []) := by
  unfold family_block
  rw [h]
  simp

/-- A family block on a present, changed address whose reconciliation
fails propagates the failure with the family context. -/
theorem family_block_err (args : Args) (kind : String) (a : String)
    (last : Option String) (records : List DomainRecord) (enabled : Bool)
    (e : String) (hg : (enabled && !((some a : Option String) == last)) = true)
    (he : (handle_record args kind a records).1 = .error e) :
    family_block args kind (some a) last records enabled =
      (.error ("Failed to update or create " ++ kind ++ " record: " ++ e),
        Event.logNewAddress kind a :: (handle_record args kind a records).2) := by
  unfold family_block
  rw [hg]
  simp [he]

/-- A family block on a present, changed address whose reconciliation
succeeds yields the new address to remember. -/
theorem family_block_ok (args : Args) (kind : String) (a : String)
    (last : Option String) (records : List DomainRecord) (enabled : Bool)
    (act : Action) (hg : (enabled && !((some a : Option String) == last)) = true)
    (he : (handle_record args kind a records).1 = .ok act) :
    family_block args kind (some a) last records enabled =
      (.ok (some a),
        Event.logNewAddress kind a :: (handle_record args kind a records).2) := by
  unfold family_block
  rw [hg]
  simp [he]

/-- A family block issues listing calls only for its own kind. -/
theorem countGet_family_block (args : Args) (kind kind' : String)
    (addr last : Option String) (records : List DomainRecord)
    (enabled : Bool) (hne : (kind == kind') = false) :
    countGet kind' (family_block args kind addr last records enabled).2 = 0 := by
  unfold family_block
  split
  · cases addr with
    | none => simp [countGet]
    | some a =>
      have hc := countGet_handle_record args kind kind' a records
      rw [hne] at hc
      cases he : (handle_record args kind a records).1 <;>
        simp [countGet, he] <;>
        simpa [countGet] using hc
  · simp [countGet]

/-- A family whose address has already been found is not queried again. -/
theorem familyStep_some {α : Type} (want : Bool) (parse : String → Option α)
    (fetch : String → Option (List String)) (p : String) (x : α) :
    familyStep want parse fetch p (some x) = some x := by
  simp [familyStep]

/-- Once an IPv4 result has been found, the rest of the endpoint loop
keeps it. -/
theorem get_ips_loop_keeps4 {α β : Type} (want4 want6 : Bool)
    (parse4 : String → Option α) (parse6 : String → Option β)
    (fetch4 fetch6 : String → Option (List String)) (ps : List String)
    (x : α) : ∀ acc6,
    (get_ips_loop want4 want6 parse4 parse6 fetch4 fetch6 ps (some x) acc6).1 =
      some x := by
  induction ps with
  | nil => intro acc6; rfl
  | cons p rest ih =>
    intro acc6
    simp only [get_ips_loop, familyStep_some]
    split
    · rfl
    · exact ih _

/-- Once an IPv6 result has been found, the rest of the endpoint loop
keeps it. -/
theorem get_ips_loop_keeps6 {α β : Type} (want4 want6 : Bool)
    (parse4 : String → Option α) (parse6 : String → Option β)
    (fetch4 fetch6 : String → Option (List String)) (ps : List String)
    (x : β) : ∀ acc4,
    (get_ips_loop want4 want6 parse4 parse6 fetch4 fetch6 ps acc4
      (some x)).2.1 = some x := by
  induction ps with
  | nil => intro acc4; rfl
  | cons p rest ih =>
    intro acc4
    simp only [get_ips_loop, familyStep_some]
    split
    · rfl
    · exact ih _

/-- For a wanted, still-unfound family, one provider step is exactly the
first parseable line of that provider's body, when any. -/
theorem familyStep_wanted_none {α : Type} (parse : String → Option α)
    (fetch : String → Option (List String)) (p : String) :
    familyStep true parse fetch p none =
      (fetch p).bind (fun lines => lines.findSome? parse) := by
  unfold familyStep try_get_ip
  cases hf : fetch p with
  | none => simp
  | some lines => cases hl : lines.findSome? parse <;> simp [hl]

/-- An unwanted family is never queried. -/
theorem familyStep_unwanted {α : Type} (parse : String → Option α)
    (fetch : String → Option (List String)) (p : String) (acc : Option α) :
    familyStep false parse fetch p acc = acc := by
  simp [familyStep]

/-- When IPv4 is wanted, the endpoint loop resolves it to the first
parseable line of the first endpoint that yields one. -/
theorem get_ips_loop_fst_first_hit {α β : Type} (want6 : Bool)
    (parse4 : String → Option α) (parse6 : String → Option β)
    (fetch4 fetch6 : String → Option (List String)) (ps : List String) :
    ∀ acc6,
    (get_ips_loop true want6 parse4 parse6 fetch4 fetch6 ps none acc6).1 =
      discoveryFirstHit parse4 fetch4 ps := by
  induction ps with
  | nil => intro acc6; rfl
  | cons p rest ih =>
    intro acc6
    simp only [get_ips_loop, familyStep_wanted_none, discoveryFirstHit,
      List.findSome?_cons]
    cases hp : (fetch4 p).bind (fun lines => lines.findSome? parse4) with
    | some a =>
      split
      · rfl
      · exact get_ips_loop_keeps4 true want6 parse4 parse6 fetch4 fetch6 rest a _
    | none =>
      split
      · next hbr => simp at hbr
      · simpa [discoveryFirstHit] using ih (familyStep want6 parse6 fetch6 p acc6)

/-- When IPv4 is not wanted, the endpoint loop leaves it unresolved. -/
theorem get_ips_loop_fst_unwanted {α β : Type} (want6 : Bool)
    (parse4 : String → Option α) (parse6 : String → Option β)
    (fetch4 fetch6 : String → Option (List String)) (ps : List String) :
    ∀ acc6,
    (get_ips_loop false want6 parse4 parse6 fetch4 fetch6 ps none acc6).1 =
      none := by
  induction ps with
  | nil => intro acc6; rfl
  | cons p rest ih =>
    intro acc6
    simp only [get_ips_loop, familyStep_unwanted]
    split
    · rfl
    · exact ih _

/-- When IPv6 is wanted, the endpoint loop resolves it to the first
parseable line of the first endpoint that yields one. -/
theorem get_ips_loop_snd_first_hit {α β : Type} (want4 : Bool)
    (parse4 : String → Option α) (parse6 : String → Option β)
    (fetch4 fetch6 : String → Option (List String)) (ps : List String) :
    ∀ acc4,
    (get_ips_loop want4 true parse4 parse6 fetch4 fetch6 ps acc4 none).2.1 =
      discoveryFirstHit parse6 fetch6 ps := by
  induction ps with
  | nil => intro acc4; rfl
  | cons p rest ih =>
    intro acc4
    simp only [get_ips_loop, familyStep_wanted_none, discoveryFirstHit,
      List.findSome?_cons]
    cases hp : (fetch6 p).bind (fun lines => lines.findSome? parse6) with
    | some b =>
      split
      · rfl
      · exact get_ips_loop_keeps6 want4 true parse4 parse6 fetch4 fetch6 rest b _
    | none =>
      split
      · next hbr => simp at hbr
      · simpa [discoveryFirstHit] using ih (familyStep want4 parse4 fetch4 p acc4)

/-- When IPv6 is not wanted, the endpoint loop leaves it unresolved. -/
theorem get_ips_loop_snd_unwanted {α β : Type} (want4 : Bool)
    (parse4 : String → Option α) (parse6 : String → Option β)
    (fetch4 fetch6 : String → Option (List String)) (ps : List String) :
    ∀ acc4,
    (get_ips_loop want4 false parse4 parse6 fetch4 fetch6 ps acc4 none).2.1 =
      none := by
  induction ps with
  | nil => intro acc4; rfl
  | cons p rest ih =>
    intro acc4
    simp only [get_ips_loop, familyStep_unwanted]
    split
    · rfl
    · exact ih _

theorem dyndns_bail4 (args : Args) (ipv4 ipv6 : Option String)
    (recordsA recordsAAAA : List DomainRecord) (last4 last6 : Option String)
    (h4 : (args.ipv4 && ipv4.isNone) = true) :
    dyndns args ipv4 ipv6 recordsA recordsAAAA last4 last6 =
      ⟨.error "No IPv4 address found", last4, last6, []⟩ := by
  unfold dyndns
  rw [h4]
  rfl

theorem dyndns_bail6 (args : Args) (ipv4 ipv6 : Option String)
    (recordsA recordsAAAA : List DomainRecord) (last4 last6 : Option String)
    (h4 : (args.ipv4 && ipv4.isNone) = false)
    (h6 : (args.ipv6 && ipv6.isNone) = true) :
    dyndns args ipv4 ipv6 recordsA recordsAAAA last4 last6 =
      ⟨.error "No IPv6 address found", last4, last6, []⟩ := by
  unfold dyndns
  rw [h4, h6]
  rfl

theorem dyndns_aErr (args : Args) (ipv4 ipv6 : Option String)
    (recordsA recordsAAAA : List DomainRecord) (last4 last6 : Option String)
    (e : String)
    (h4 : (args.ipv4 && ipv4.isNone) = false)
    (h6 : (args.ipv6 && ipv6.isNone) = false)
    (ha : (family_block args "A" ipv4 last4 recordsA args.ipv4).1 = .error e) :
    dyndns args ipv4 ipv6 recordsA recordsAAAA last4 last6 =
      ⟨.error e, last4, last6,
        (family_block args "A" ipv4 last4 recordsA args.ipv4).2⟩ := by
  unfold dyndns
  rw [h4, h6]
  simp [ha]

theorem dyndns_aOk_bErr (args : Args) (ipv4 ipv6 : Option String)
    (recordsA recordsAAAA : List DomainRecord) (last4 last6 : Option String)
    (n4 : Option String) (e : String)
    (h4 : (args.ipv4 && ipv4.isNone) = false)
    (h6 : (args.ipv6 && ipv6.isNone) = false)
    (ha : (family_block args "A" ipv4 last4 recordsA args.ipv4).1 = .ok n4)
    (hb : (family_block args "AAAA" ipv6 last6 recordsAAAA args.ipv6).1 =
      .error e) :
    dyndns args ipv4 ipv6 recordsA recordsAAAA last4 last6 =
      ⟨.error e, n4, last6,
        (family_block args "A" ipv4 last4 recordsA args.ipv4).2 ++
          (family_block args "AAAA" ipv6 last6 recordsAAAA args.ipv6).2⟩ := by
  unfold dyndns
  rw [h4, h6]
  simp [ha, hb]

theorem dyndns_aOk_bOk (args : Args) (ipv4 ipv6 : Option String)
    (recordsA recordsAAAA : List DomainRecord) (last4 last6 : Option String)
    (n4 n6 : Option String)
    (h4 : (args.ipv4 && ipv4.isNone) = false)
    (h6 : (args.ipv6 && ipv6.isNone) = false)
    (ha : (family_block args "A" ipv4 last4 recordsA args.ipv4).1 = .ok n4)
    (hb : (family_block args "AAAA" ipv6 last6 recordsAAAA args.ipv6).1 =
      .ok n6) :
    dyndns args ipv4 ipv6 recordsA recordsAAAA last4 last6 =
      ⟨.ok (), n4, n6,
        (family_block args "A" ipv4 last4 recordsA args.ipv4).2 ++
          (family_block args "AAAA" ipv6 last6 recordsAAAA args.ipv6).2⟩ := by
  unfold dyndns
  rw [h4, h6]
  simp [ha, hb]

/-- No event of a `handle_record` trace is a loop-iteration marker. -/
theorem countCycles_handle_record (args : Args) (kind addr : String)
    (records : List DomainRecord) :
    countCycles (handle_record args kind addr records).2 = 0 := by
  rcases h : localNameFilter args records with - | ⟨r, - | ⟨r2, rs⟩⟩
  · rw [handle_record_eq_nil args kind addr records h]
    cases hdr : args.dry_run <;>
      simp [countCycles, create_record, hdr, listRecordsEvent]
  · cases hd : r.data == addr
    · rw [handle_record_eq_one_diff args kind addr records r h hd]
      cases hdr : args.dry_run <;>
        simp [countCycles, update_record, hdr, listRecordsEvent]
    · rw [handle_record_eq_one_same args kind addr records r h hd]
      simp [countCycles, listRecordsEvent]
  · rw [handle_record_eq_many args kind addr records r r2 rs h]
    simp [countCycles, listRecordsEvent]

/-- No event of a family block's trace is a loop-iteration marker. -/
theorem countCycles_family_block (args : Args) (kind : String)
    (addr last : Option String) (records : List DomainRecord)
    (enabled : Bool) :
    countCycles (family_block args kind addr last records enabled).2 = 0 := by
  unfold family_block
  split
  · cases addr with
    | none => simp [countCycles]
    | some a =>
      have hc := countCycles_handle_record args kind a records
      simp only [countCycles] at hc
      cases he : (handle_record args kind a records).1 <;>
        simp [countCycles, he, List.countP_cons, hc]
  · simp [countCycles]

/-- No event of a `dyndns` trace is a loop-iteration marker. -/
theorem countCycles_dyndns (args : Args) (ipv4 ipv6 : Option String)
    (recordsA recordsAAAA : List DomainRecord) (last4 last6 : Option String) :
    countCycles
      (dyndns args ipv4 ipv6 recordsA recordsAAAA last4 last6).trace = 0 := by
  cases h4 : (args.ipv4 && ipv4.isNone)
  · cases h6 : (args.ipv6 && ipv6.isNone)
    · have ha := countCycles_family_block args "A" ipv4 last4 recordsA args.ipv4
      have hb :=
        countCycles_family_block args "AAAA" ipv6 last6 recordsAAAA args.ipv6
      cases hae : (family_block args "A" ipv4 last4 recordsA args.ipv4).1 with
      | error e =>
        rw [dyndns_aErr args ipv4 ipv6 recordsA recordsAAAA last4 last6 e
          h4 h6 hae]
        exact ha
      | ok n4 =>
        cases hbe :
            (family_block args "AAAA" ipv6 last6 recordsAAAA args.ipv6).1 with
        | error e =>
          rw [dyndns_aOk_bErr args ipv4 ipv6 recordsA recordsAAAA last4 last6
            n4 e h4 h6 hae hbe]
          simp [countCycles] at ha hb ⊢
          exact ⟨ha, hb⟩
        | ok n6 =>
          rw [dyndns_aOk_bOk args ipv4 ipv6 recordsA recordsAAAA last4 last6
            n4 n6 h4 h6 hae hbe]
          simp [countCycles] at ha hb ⊢
          exact ⟨ha, hb⟩
    · rw [dyndns_bail6 args ipv4 ipv6 recordsA recordsAAAA last4 last6 h4 h6]
      rfl
  · rw [dyndns_bail4 args ipv4 ipv6 recordsA recordsAAAA last4 last6 h4]
    rfl

/-- The endpoint scan stops early: when the first endpoint of the list
satisfies every wanted family, no later endpoint is visited. -/
theorem get_ips_loop_early_stop {α β : Type} (want4 want6 : Bool)
    (parse4 : String → Option α) (parse6 : String → Option β)
    (fetch4 fetch6 : String → Option (List String)) (p : String)
    (rest : List String) (acc4 : Option α) (acc6 : Option β)
    (hbr : ((want4 == (familyStep want4 parse4 fetch4 p acc4).isSome) &&
        (want6 == (familyStep want6 parse6 fetch6 p acc6).isSome)) = true) :
    (get_ips_loop want4 want6 parse4 parse6 fetch4 fetch6 (p :: rest)
      acc4 acc6).2.2 = [p] := by
  simp only [get_ips_loop]
  rw [if_pos hbr]

end DoDyndns

namespace DoDyndns

/-! Concrete fixtures used by witnesses and counterexamples. -/

/-- Arguments with both families enabled, live mode, apex subdomain. -/
def argsBoth : Args :=
  { dry_run := false, once := false, ipv4 := true, ipv6 := true,
    sleep_interval := 300, ttl := 60, subdomain := "@",
    domain := "example.com" }

/-- Arguments with only IPv4 enabled and subdomain `www`. -/
def argsWww : Args :=
  { dry_run := false, once := false, ipv4 := true, ipv6 := false,
    sleep_interval := 300, ttl := 60, subdomain := "www",
    domain := "example.com" }

/-- An apex A record fixture. -/
def recApex (i : Int) (data : String) : DomainRecord :=
  { id := i, name := "@", data := data, ttl := 60, kind := "A" }

/-- A `www` A record fixture. -/
def recWww (i : Int) (data : String) : DomainRecord :=
  { id := i, name := "www", data := data, ttl := 60, kind := "A" }

/-! Claim theorems. -/

/-- C1 (code bug): at a concrete scenario with exactly one matching record
whose data differs — subdomain `www`, kind `A`, desired data `1.2.3.4`,
listing `[{id: 7, name: www, type: A, data: 9.9.9.9}]` — `handle_record`
classifies the pass as `Updated` and issues exactly one update call
addressed by that record's id, but the PUT body it sends carries the
desired record's kind in the `name` field and its name in the `type`
field (`main.rs` line 229 passes `(name, kind)` positionally into
`ApiClient::update_record(domain, id, kind, name, data, ttl)`), so the
call does not carry D's name and kind as the claim states; the create
half of the claim does hold (an empty listing yields exactly one create
call carrying D's fields). -/
theorem c1_update_sends_transposed_fields :
    ((handle_record argsWww "A" "1.2.3.4" [recWww 7 "9.9.9.9"]).1 =
        .ok .Updated ∧
      writesOf (handle_record argsWww "A" "1.2.3.4" [recWww 7 "9.9.9.9"]).2 =
        [Event.updateCall "example.com" 7 "A" "www" "1.2.3.4" 60] ∧
      writesOf (handle_record argsWww "A" "1.2.3.4" [recWww 7 "9.9.9.9"]).2 ≠
        [Event.updateCall "example.com" 7 "www" "A" "1.2.3.4" 60]) ∧
    ((handle_record argsWww "A" "1.2.3.4" []).1 = .ok .Created ∧
      writesOf (handle_record argsWww "A" "1.2.3.4" []).2 =
        [Event.createCall "example.com" "www" "A" "1.2.3.4" 60]) := by
  exact ⟨⟨rfl, rfl, by decide⟩, rfl, rfl⟩

/-- C2: when the listing contains exactly one record matching D's
(name, kind) and its data equals D's data, `handle_record` classifies the
pass as `Skip` and issues no write call at all. -/
theorem c2_skip_issues_no_write (args : Args) (kind addr : String)
    (records : List DomainRecord) (hk : ∀ r ∈ records, r.kind = kind)
    (r : DomainRecord)
    (hone : records.filter
      (fun r => r.name == args.subdomain && r.kind == kind) = [r])
    (hd : r.data = addr) :
    (handle_record args kind addr records).1 = .ok .Skip ∧
    writesOf (handle_record args kind addr records).2 = [] := by
  have hfe : localNameFilter args records =
      records.filter (fun r => r.name == args.subdomain && r.kind == kind) :=
    filter_name_eq_filter_name_kind records args.subdomain kind hk
  have hdb : (r.data == addr) = true := by simpa using hd
  rw [handle_record_eq_one_same args kind addr records r (hfe.trans hone) hdb]
  simp [writesOf, isWrite, listRecordsEvent]

/-- Witness for C2 at a concrete input: the single matching record already
has the desired data. -/
theorem c2_witness :
    (handle_record argsWww "A" "1.2.3.4" [recWww 7 "1.2.3.4"]).1 =
      .ok .Skip ∧
    writesOf (handle_record argsWww "A" "1.2.3.4" [recWww 7 "1.2.3.4"]).2 =
      [] :=
  c2_skip_issues_no_write argsWww "A" "1.2.3.4" [recWww 7 "1.2.3.4"]
    (by decide) (recWww 7 "1.2.3.4") (by decide) rfl

end DoDyndns

namespace DoDyndns

/-- Counterexample for C3: with subdomain `www` and two matching A
records, `handle_record` fails with the message "More than one A record
found", which names the record kind but does not contain the name `www`
anywhere — the claim that the ambiguity error identifies both the kind
and the name is false on the code. -/
theorem c3_counterexample :
    (handle_record argsWww "A" "5.6.7.8"
      [recWww 1 "1.2.3.4", recWww 2 "9.9.9.9"]).1 =
      .error "More than one A record found" ∧
    strContains "More than one A record found" "www" = false := by
  constructor
  · rfl
  · decide

/-- C3 (amended): with two or more records matching D's (name, kind),
`handle_record` issues no write call and fails with an ambiguous-state
error whose message identifies the record kind (the subdomain name is
not part of the message). -/
theorem c3_ambiguity_no_write (args : Args) (kind addr : String)
    (records : List DomainRecord) (hk : ∀ r ∈ records, r.kind = kind)
    (r1 r2 : DomainRecord) (rs : List DomainRecord)
    (hmany : records.filter
      (fun r => r.name == args.subdomain && r.kind == kind) =
        r1 :: r2 :: rs) :
    (handle_record args kind addr records).1 =
      .error ("More than one " ++ kind ++ " record found") ∧
    writesOf (handle_record args kind addr records).2 = [] ∧
    strContains ("More than one " ++ kind ++ " record found") kind = true := by
  have hfe : localNameFilter args records =
      records.filter (fun r => r.name == args.subdomain && r.kind == kind) :=
    filter_name_eq_filter_name_kind records args.subdomain kind hk
  rw [handle_record_eq_many args kind addr records r1 r2 rs (hfe.trans hmany)]
  refine ⟨rfl, ?_, strContains_of_middle_str "More than one " kind
    " record found"⟩
  simp [writesOf, isWrite, listRecordsEvent]

/-- Witness for the amended C3 at a concrete input with two matching
records. -/
theorem c3_witness :
    (handle_record argsWww "A" "5.6.7.8"
      [recWww 3 "1.2.3.4", recWww 4 "9.9.9.9"]).1 =
      .error ("More than one " ++ "A" ++ " record found") ∧
    writesOf (handle_record argsWww "A" "5.6.7.8"
      [recWww 3 "1.2.3.4", recWww 4 "9.9.9.9"]).2 = [] ∧
    strContains ("More than one " ++ "A" ++ " record found") "A" = true :=
  c3_ambiguity_no_write argsWww "A" "5.6.7.8"
    [recWww 3 "1.2.3.4", recWww 4 "9.9.9.9"] (by decide)
    (recWww 3 "1.2.3.4") (recWww 4 "9.9.9.9") [] (by decide)

/-- C6 (code bug): at a concrete update scenario the dry run does issue
zero writes, classifies the pass like the live run, and logs an info line
with `name: "www", type: "A"` — the fields the update was meant to send —
but the live run actually sends the PUT body with those two fields
transposed (`name: "A"`, `type: "www"`, from the swapped arguments at
`main.rs` line 229), so the dry run does not log the fields that would
have been sent: no would-update log carrying the actually-sent field pair
appears in its trace.  (Create scenarios are unaffected: the dry-run log
and the live POST body agree there.) -/
theorem c6_dry_run_log_differs_from_sent :
    writesOf (handle_record {argsWww with dry_run := true} "A" "1.2.3.4"
      [recWww 7 "9.9.9.9"]).2 = [] ∧
    (handle_record {argsWww with dry_run := true} "A" "1.2.3.4"
      [recWww 7 "9.9.9.9"]).1 =
      (handle_record argsWww "A" "1.2.3.4" [recWww 7 "9.9.9.9"]).1 ∧
    Event.logWouldUpdate "www" "A" "1.2.3.4" 60 ∈
      (handle_record {argsWww with dry_run := true} "A" "1.2.3.4"
        [recWww 7 "9.9.9.9"]).2 ∧
    writesOf (handle_record argsWww "A" "1.2.3.4" [recWww 7 "9.9.9.9"]).2 =
      [Event.updateCall "example.com" 7 "A" "www" "1.2.3.4" 60] ∧
    Event.logWouldUpdate "A" "www" "1.2.3.4" 60 ∉
      (handle_record {argsWww with dry_run := true} "A" "1.2.3.4"
        [recWww 7 "9.9.9.9"]).2 := by
  exact ⟨rfl, rfl, by decide, rfl, by decide⟩

end DoDyndns

namespace DoDyndns

/-- Counterexample for C4: both families are enabled and both discovered
addresses changed, the A-record reconciliation fails (two ambiguous A
records), and the cycle aborts — no AAAA listing call is ever issued, so
the IPv6 reconciliation was not attempted in that cycle. -/
theorem c4_counterexample :
    (dyndns argsBoth (some "1.2.3.4") (some "aa::1")
      [recApex 1 "9.9.9.9", recApex 2 "8.8.8.8"] [] none none).res =
      .error
        "Failed to update or create A record: More than one A record found" ∧
    countGet "AAAA" (dyndns argsBoth (some "1.2.3.4") (some "aa::1")
      [recApex 1 "9.9.9.9", recApex 2 "8.8.8.8"] [] none none).trace = 0 := by
  constructor
  · rfl
  · rfl

/-- C4 (amended): the two families are reconciled in a fixed order within
a cycle.  An IPv4 reconciliation failure aborts the cycle before the IPv6
reconciliation is attempted (no AAAA listing call is issued and the IPv4
memory is not updated); an IPv6 reconciliation failure does not undo the
IPv4 reconciliation, which has already run (its single A listing call is
in the trace) and had its new address recorded. -/
theorem c4_order_of_families (args : Args) (ipv4 ipv6 : Option String)
    (recordsA recordsAAAA : List DomainRecord) (last4 last6 : Option String) :
    (∀ a e, ipv4 = some a →
      (args.ipv4 && !((some a : Option String) == last4)) = true →
      (handle_record args "A" a recordsA).1 = .error e →
      (args.ipv6 && ipv6.isNone) = false →
      (dyndns args ipv4 ipv6 recordsA recordsAAAA last4 last6).res =
        .error ("Failed to update or create A record: " ++ e) ∧
      countGet "AAAA"
        (dyndns args ipv4 ipv6 recordsA recordsAAAA last4 last6).trace = 0 ∧
      (dyndns args ipv4 ipv6 recordsA recordsAAAA last4 last6).last4 =
        last4) ∧
    (∀ a b act e, ipv4 = some a → ipv6 = some b →
      (args.ipv4 && !((some a : Option String) == last4)) = true →
      (args.ipv6 && !((some b : Option String) == last6)) = true →
      (handle_record args "A" a recordsA).1 = .ok act →
      (handle_record args "AAAA" b recordsAAAA).1 = .error e →
      (dyndns args ipv4 ipv6 recordsA recordsAAAA last4 last6).res =
        .error ("Failed to update or create AAAA record: " ++ e) ∧
      countGet "A"
        (dyndns args ipv4 ipv6 recordsA recordsAAAA last4 last6).trace = 1 ∧
      (dyndns args ipv4 ipv6 recordsA recordsAAAA last4 last6).last4 =
        some a) := by
  constructor
  · intro a e h4a hg he h6
    subst h4a
    have h4 : (args.ipv4 && (some a : Option String).isNone) = false := by
      simp
    have ha := family_block_err args "A" a last4 recordsA args.ipv4 e hg he
    rw [dyndns_aErr args (some a) ipv6 recordsA recordsAAAA last4 last6
      ("Failed to update or create A record: " ++ e) h4 h6
      (by rw [ha]; rfl)]
    refine ⟨rfl, ?_, rfl⟩
    rw [ha]
    have hc := countGet_handle_record args "A" "AAAA" a recordsA
    simp only [countGet] at hc ⊢
    simp [List.countP_cons, hc]
  · intro a b act e h4a h6b hga hgb hoka herrb
    subst h4a
    subst h6b
    have h4 : (args.ipv4 && (some a : Option String).isNone) = false := by
      simp
    have h6 : (args.ipv6 && (some b : Option String).isNone) = false := by
      simp
    have ha := family_block_ok args "A" a last4 recordsA args.ipv4 act hga hoka
    have hb := family_block_err args "AAAA" b last6 recordsAAAA args.ipv6 e
      hgb herrb
    rw [dyndns_aOk_bErr args (some a) (some b) recordsA recordsAAAA last4
      last6 (some a) ("Failed to update or create AAAA record: " ++ e)
      h4 h6 (by rw [ha]) (by rw [hb]; rfl)]
    refine ⟨rfl, ?_, rfl⟩
    rw [ha, hb]
    have hcA := countGet_handle_record args "A" "A" a recordsA
    have hcB := countGet_handle_record args "AAAA" "A" b recordsAAAA
    simp only [countGet] at hcA hcB ⊢
    simp [List.countP_cons, List.countP_append, hcA, hcB]

/-- Witness for the amended C4: the IPv4-failure half at the concrete
ambiguous-A scenario, and the IPv6-failure half at a scenario where the A
record is created and the AAAA listing is ambiguous. -/
theorem c4_witness :
    ((dyndns argsBoth (some "1.2.3.4") (some "aa::1")
        [recApex 5 "9.9.9.9", recApex 6 "8.8.8.8"] [] none none).res =
      .error ("Failed to update or create A record: " ++
        "More than one A record found") ∧
      countGet "AAAA" (dyndns argsBoth (some "1.2.3.4") (some "aa::1")
        [recApex 5 "9.9.9.9", recApex 6 "8.8.8.8"] [] none none).trace = 0 ∧
      (dyndns argsBoth (some "1.2.3.4") (some "aa::1")
        [recApex 5 "9.9.9.9", recApex 6 "8.8.8.8"] [] none none).last4 =
        none) ∧
    ((dyndns argsBoth (some "1.2.3.4") (some "aa::1") []
        [⟨7, "@", "bb::2", 60, "AAAA"⟩, ⟨8, "@", "cc::3", 60, "AAAA"⟩]
        none none).res =
      .error ("Failed to update or create AAAA record: " ++
        "More than one AAAA record found") ∧
      countGet "A" (dyndns argsBoth (some "1.2.3.4") (some "aa::1") []
        [⟨7, "@", "bb::2", 60, "AAAA"⟩, ⟨8, "@", "cc::3", 60, "AAAA"⟩]
        none none).trace = 1 ∧
      (dyndns argsBoth (some "1.2.3.4") (some "aa::1") []
        [⟨7, "@", "bb::2", 60, "AAAA"⟩, ⟨8, "@", "cc::3", 60, "AAAA"⟩]
        none none).last4 = some "1.2.3.4") := by
  constructor
  · exact (c4_order_of_families argsBoth (some "1.2.3.4") (some "aa::1")
      [recApex 5 "9.9.9.9", recApex 6 "8.8.8.8"] [] none none).1
      "1.2.3.4" "More than one A record found" rfl (by decide) rfl
      (by decide)
  · exact (c4_order_of_families argsBoth (some "1.2.3.4") (some "aa::1") []
      [⟨7, "@", "bb::2", 60, "AAAA"⟩, ⟨8, "@", "cc::3", 60, "AAAA"⟩]
      none none).2 "1.2.3.4" "aa::1" .Created
      "More than one AAAA record found" rfl rfl (by decide) (by decide)
      rfl rfl

/-- Counterexample for C5: both families enabled, the IPv4 address came
back absent and the IPv6 address is present and changed; the cycle fails
with an error and its trace is empty — no warning is logged and no AAAA
reconciliation happens, so the cycle does not run to completion for the
other enabled family. -/
theorem c5_counterexample :
    (dyndns argsBoth none (some "aa::1") [] [] none none).res =
      .error "No IPv4 address found" ∧
    (dyndns argsBoth none (some "aa::1") [] [] none none).trace = [] := by
  exact ⟨rfl, rfl⟩

/-- C5 (amended): in a cycle, an enabled family whose discovered address
came back absent makes the cycle fail immediately with the error
"No IPvN address found" (the IPv4 check runs first); `LastSeenAddresses`
is left unchanged for both families, no API call and no warning log is
emitted, and the other family is not processed in that cycle.  The error
is caught and logged at the loop boundary (see the C9 theorem). -/
theorem c5_absent_address_fails_cycle (args : Args)
    (ipv4 ipv6 : Option String) (recordsA recordsAAAA : List DomainRecord)
    (last4 last6 : Option String) :
    (args.ipv4 = true → ipv4 = none →
      dyndns args ipv4 ipv6 recordsA recordsAAAA last4 last6 =
        ⟨.error "No IPv4 address found", last4, last6, []⟩) ∧
    ((args.ipv4 && ipv4.isNone) = false → args.ipv6 = true → ipv6 = none →
      dyndns args ipv4 ipv6 recordsA recordsAAAA last4 last6 =
        ⟨.error "No IPv6 address found", last4, last6, []⟩) := by
  constructor
  · intro he hn
    subst hn
    exact dyndns_bail4 args none ipv6 recordsA recordsAAAA last4 last6
      (by simp [he])
  · intro h4 he hn
    subst hn
    exact dyndns_bail6 args ipv4 none recordsA recordsAAAA last4 last6 h4
      (by simp [he])

/-- Witness for the amended C5 at concrete inputs, for each family. -/
theorem c5_witness :
    dyndns argsBoth none (some "dd::4") [] [] none none =
      ⟨.error "No IPv4 address found", none, none, []⟩ ∧
    dyndns argsBoth (some "4.3.2.1") none [] [] (some "4.3.2.1") none =
      ⟨.error "No IPv6 address found", some "4.3.2.1", none, []⟩ := by
  constructor
  · exact (c5_absent_address_fails_cycle argsBoth none (some "dd::4") [] []
      none none).1 rfl rfl
  · exact (c5_absent_address_fails_cycle argsBoth (some "4.3.2.1") none [] []
      (some "4.3.2.1") none).2 (by decide) rfl rfl

/-- C7: for each family, when the discovered address equals the remembered
one, `dyndns` issues no listing call for that family's record kind — no
reconciliation is attempted for an unchanged address. -/
theorem c7_unchanged_no_reconcile (args : Args) (ipv4 ipv6 : Option String)
    (recordsA recordsAAAA : List DomainRecord) (last4 last6 : Option String) :
    (ipv4 = last4 →
      countGet "A"
        (dyndns args ipv4 ipv6 recordsA recordsAAAA last4 last6).trace = 0) ∧
    (ipv6 = last6 →
      countGet "AAAA"
        (dyndns args ipv4 ipv6 recordsA recordsAAAA last4 last6).trace =
          0) := by
  constructor
  · intro h
    subst h
    cases h4 : (args.ipv4 && ipv4.isNone)
    · cases h6 : (args.ipv6 && ipv6.isNone)
      · have ha : family_block args "A" ipv4 ipv4 recordsA args.ipv4 =
            (.ok ipv4, []) := family_block_off args "A" ipv4 ipv4 recordsA
          args.ipv4 (by simp)
        cases hbe :
            (family_block args "AAAA" ipv6 last6 recordsAAAA args.ipv6).1 with
        | error e =>
          rw [dyndns_aOk_bErr args ipv4 ipv6 recordsA recordsAAAA ipv4 last6
            ipv4 e h4 h6 (by rw [ha]) hbe]
          rw [ha]
          have hc := countGet_family_block args "AAAA" "A" ipv6 last6
            recordsAAAA args.ipv6 (by decide)
          simpa [countGet] using hc
        | ok n6 =>
          rw [dyndns_aOk_bOk args ipv4 ipv6 recordsA recordsAAAA ipv4 last6
            ipv4 n6 h4 h6 (by rw [ha]) hbe]
          rw [ha]
          have hc := countGet_family_block args "AAAA" "A" ipv6 last6
            recordsAAAA args.ipv6 (by decide)
          simpa [countGet] using hc
      · rw [dyndns_bail6 args ipv4 ipv6 recordsA recordsAAAA ipv4 last6
          h4 h6]
        rfl
    · rw [dyndns_bail4 args ipv4 ipv6 recordsA recordsAAAA ipv4 last6 h4]
      rfl
  · intro h
    subst h
    cases h4 : (args.ipv4 && ipv4.isNone)
    · cases h6 : (args.ipv6 && ipv6.isNone)
      · have hb : family_block args "AAAA" ipv6 ipv6 recordsAAAA args.ipv6 =
            (.ok ipv6, []) := family_block_off args "AAAA" ipv6 ipv6
          recordsAAAA args.ipv6 (by simp)
        cases hae :
            (family_block args "A" ipv4 last4 recordsA args.ipv4).1 with
        | error e =>
          rw [dyndns_aErr args ipv4 ipv6 recordsA recordsAAAA last4 ipv6 e
            h4 h6 hae]
          have hc := countGet_family_block args "A" "AAAA" ipv4 last4
            recordsA args.ipv4 (by decide)
          simpa [countGet] using hc
        | ok n4 =>
          rw [dyndns_aOk_bOk args ipv4 ipv6 recordsA recordsAAAA last4 ipv6
            n4 ipv6 h4 h6 hae (by rw [hb])]
          rw [hb]
          have hc := countGet_family_block args "A" "AAAA" ipv4 last4
            recordsA args.ipv4 (by decide)
          simpa [countGet] using hc
      · rw [dyndns_bail6 args ipv4 ipv6 recordsA recordsAAAA last4 ipv6
          h4 h6]
        rfl
    · rw [dyndns_bail4 args ipv4 ipv6 recordsA recordsAAAA last4 ipv6 h4]
      rfl

/-- Witness for C7: a cycle in which both discovered addresses equal the
remembered ones issues no listing call for either kind. -/
theorem c7_witness :
    countGet "A" (dyndns argsBoth (some "1.2.3.4") (some "aa::1")
      [recApex 9 "1.2.3.4"] [] (some "1.2.3.4") (some "aa::1")).trace = 0 ∧
    countGet "AAAA" (dyndns argsBoth (some "1.2.3.4") (some "aa::1")
      [recApex 9 "1.2.3.4"] [] (some "1.2.3.4") (some "aa::1")).trace =
      0 := by
  constructor
  · exact (c7_unchanged_no_reconcile argsBoth (some "1.2.3.4")
      (some "aa::1") [recApex 9 "1.2.3.4"] [] (some "1.2.3.4")
      (some "aa::1")).1 rfl
  · exact (c7_unchanged_no_reconcile argsBoth (some "1.2.3.4")
      (some "aa::1") [recApex 9 "1.2.3.4"] [] (some "1.2.3.4")
      (some "aa::1")).2 rfl

end DoDyndns

namespace DoDyndns

/-- C8: address discovery never returns an error; for each wanted family
the result is the address parsed from the first response-body line that
parses, from the first endpoint in the fixed ordered list that yields one
(per-endpoint transport and parse failures are swallowed, and no yield at
all gives absence, not a failure); an unwanted family stays absent; and
the endpoint scan stops early once every wanted family is satisfied. -/
theorem c8_discovery_never_fails {α β : Type} (want4 want6 : Bool)
    (parse4 : String → Option α) (parse6 : String → Option β)
    (fetch4 fetch6 : String → Option (List String)) :
    get_ips want4 want6 parse4 parse6 fetch4 fetch6 =
      .ok (get_ips_loop want4 want6 parse4 parse6 fetch4 fetch6 PROVIDERS
        none none) ∧
    (want4 = true →
      (get_ips_loop want4 want6 parse4 parse6 fetch4 fetch6 PROVIDERS
        none none).1 = discoveryFirstHit parse4 fetch4 PROVIDERS) ∧
    (want4 = false →
      (get_ips_loop want4 want6 parse4 parse6 fetch4 fetch6 PROVIDERS
        none none).1 = none) ∧
    (want6 = true →
      (get_ips_loop want4 want6 parse4 parse6 fetch4 fetch6 PROVIDERS
        none none).2.1 = discoveryFirstHit parse6 fetch6 PROVIDERS) ∧
    (want6 = false →
      (get_ips_loop want4 want6 parse4 parse6 fetch4 fetch6 PROVIDERS
        none none).2.1 = none) ∧
    (∀ p rest acc4 acc6,
      ((want4 == (familyStep want4 parse4 fetch4 p acc4).isSome) &&
        (want6 == (familyStep want6 parse6 fetch6 p acc6).isSome)) = true →
      (get_ips_loop want4 want6 parse4 parse6 fetch4 fetch6 (p :: rest)
        acc4 acc6).2.2 = [p]) := by
  refine ⟨rfl, ?_, ?_, ?_, ?_, ?_⟩
  · intro h
    subst h
    exact get_ips_loop_fst_first_hit want6 parse4 parse6 fetch4 fetch6
      PROVIDERS none
  · intro h
    subst h
    exact get_ips_loop_fst_unwanted want6 parse4 parse6 fetch4 fetch6
      PROVIDERS none
  · intro h
    subst h
    exact get_ips_loop_snd_first_hit want4 parse4 parse6 fetch4 fetch6
      PROVIDERS none
  · intro h
    subst h
    exact get_ips_loop_snd_unwanted want4 parse4 parse6 fetch4 fetch6
      PROVIDERS none
  · intro p rest acc4 acc6 hbr
    exact get_ips_loop_early_stop want4 want6 parse4 parse6 fetch4 fetch6
      p rest acc4 acc6 hbr

/-- A transport fixture for the C8 witness: the first endpoint answers
with an unparseable line followed by a parseable IPv4 literal. -/
def fetchV4Example : String → Option (List String) := fun p =>
  if p = "https://ifconfig.me" then some ["not-an-ip", "203.0.113.5"]
  else some ["198.51.100.7"]

/-- A transport fixture where every request fails. -/
def fetchFailAll : String → Option (List String) := fun _ => none

/-- Witness for C8 at concrete inputs: with IPv4 wanted and IPv6 not,
discovery succeeds, yields 203.0.113.5 (skipping the unparseable first
line), leaves IPv6 absent, and visits only the first endpoint. -/
theorem c8_witness :
    get_ips true false parseIpv4 parseIpv4 fetchV4Example fetchFailAll =
      .ok (get_ips_loop true false parseIpv4 parseIpv4 fetchV4Example
        fetchFailAll PROVIDERS none none) ∧
    (get_ips_loop true false parseIpv4 parseIpv4 fetchV4Example fetchFailAll
      PROVIDERS none none).1 = some (203, 0, 113, 5) ∧
    (get_ips_loop true false parseIpv4 parseIpv4 fetchV4Example fetchFailAll
      PROVIDERS none none).2.1 = none ∧
    (get_ips_loop true false parseIpv4 parseIpv4 fetchV4Example fetchFailAll
      PROVIDERS none none).2.2 = ["https://ifconfig.me"] := by
  have h := c8_discovery_never_fails true false parseIpv4 parseIpv4
    fetchV4Example fetchFailAll
  refine ⟨h.1, ?_, h.2.2.2.2.1 rfl, ?_⟩
  · rw [h.2.1 rfl]
    decide
  · have hps : PROVIDERS = "https://ifconfig.me" :: ["https://ifconfig.co"] :=
      rfl
    rw [hps]
    exact h.2.2.2.2.2 "https://ifconfig.me" ["https://ifconfig.co"] none none
      (by decide)

/-- In continuous mode the loop runs one iteration per unit of observation
fuel: no cycle outcome ever terminates it. -/
theorem main_loop_continuous_count (args : Args) (oracle : Nat → CycleInput)
    (honce : args.once = false) :
    ∀ fuel n st, countCycles (main_loop args oracle fuel n st).2 = fuel := by
  intro fuel
  induction fuel with
  | zero => intro n st; rfl
  | succ f ih =>
    intro n st
    have hd := countCycles_dyndns args (oracle n).ipv4 (oracle n).ipv6
      (oracle n).recordsA (oracle n).recordsAAAA st.last4 st.last6
    simp only [countCycles] at hd
    cases hres : (dyndns args (oracle n).ipv4 (oracle n).ipv6
        (oracle n).recordsA (oracle n).recordsAAAA st.last4 st.last6).res
    all_goals
      simp [main_loop, honce, hres, countCycles, List.countP_cons,
        List.countP_append, hd]
      exact ih _ _

end DoDyndns

namespace DoDyndns

/-- C9: every error raised by a cycle is caught at the loop boundary and
logged; in continuous mode the loop keeps iterating (one cycle per unit of
observation fuel, whatever each cycle's outcome), and in single-shot mode
(`--once`) exactly one cycle runs regardless of that cycle's outcome. -/
theorem c9_cycle_errors_contained (args : Args) (oracle : Nat → CycleInput)
    (fuel n : Nat) (st : LoopState) :
    (args.once = true →
      countCycles (main_loop args oracle (fuel + 1) n st).2 = 1) ∧
    (args.once = false →
      countCycles (main_loop args oracle fuel n st).2 = fuel) ∧
    (∀ e, 0 < fuel →
      (dyndns args (oracle n).ipv4 (oracle n).ipv6 (oracle n).recordsA
        (oracle n).recordsAAAA st.last4 st.last6).res = .error e →
      Event.logError e ∈ (main_loop args oracle fuel n st).2) := by
  refine ⟨?_, ?_, ?_⟩
  · intro h
    have hd := countCycles_dyndns args (oracle n).ipv4 (oracle n).ipv6
      (oracle n).recordsA (oracle n).recordsAAAA st.last4 st.last6
    simp only [countCycles] at hd
    cases hres : (dyndns args (oracle n).ipv4 (oracle n).ipv6
        (oracle n).recordsA (oracle n).recordsAAAA st.last4 st.last6).res <;>
      simp [main_loop, h, hres, countCycles, List.countP_cons,
        List.countP_append, hd]
  · intro h
    exact main_loop_continuous_count args oracle h fuel n st
  · intro e hf hres
    cases fuel with
    | zero => exact absurd hf (by simp)
    | succ f =>
      cases honce : args.once <;>
        simp [main_loop, honce, hres, List.mem_append, List.mem_cons]

end DoDyndns

namespace DoDyndns

/-- The cycle-input oracle for the C9 witness: discovery always comes back
empty, which makes every cycle fail (IPv4 is enabled). -/
def oracleEmpty : Nat → CycleInput := fun _ => ⟨none, none, [], []⟩

/-- Arguments like `argsBoth` but in single-shot mode. -/
def argsOnceRun : Args := { argsBoth with once := true }

/-- Witness for C9 at concrete inputs: in single-shot mode one failing
cycle runs and the loop stops; in continuous mode three units of fuel give
three cycles despite every one failing, and the failure is logged. -/
theorem c9_witness :
    countCycles (main_loop argsOnceRun oracleEmpty (0 + 1) 0
      ⟨none, none⟩).2 = 1 ∧
    countCycles (main_loop argsBoth oracleEmpty 3 0 ⟨none, none⟩).2 = 3 ∧
    Event.logError "No IPv4 address found" ∈
      (main_loop argsBoth oracleEmpty 3 0 ⟨none, none⟩).2 := by
  refine ⟨(c9_cycle_errors_contained argsOnceRun oracleEmpty 0 0
      ⟨none, none⟩).1 rfl,
    (c9_cycle_errors_contained argsBoth oracleEmpty 3 0 ⟨none, none⟩).2.1 rfl,
    (c9_cycle_errors_contained argsBoth oracleEmpty 3 0 ⟨none, none⟩).2.2
      "No IPv4 address found" (by decide) rfl⟩

/-- C10: a provider response body that is the error envelope
`{id, message}` decodes to the error variant of both untagged response
types — the success variant cannot match it, since the envelope has no
`domain_record` (or `domain_records`) field, so the selection is
unambiguous — and every API call (list, create, update) receiving it
fails with a message that contains both the `id` and the `message`
fields verbatim. -/
theorem c10_error_envelope_fails (i m : String) :
    decodeDomainRecordResponse
      (Json.obj [("id", Json.str i), ("message", Json.str m)]) =
      some (.Error i m) ∧
    decodeDomainRecordsResponse
      (Json.obj [("id", Json.str i), ("message", Json.str m)]) =
      some (.Error i m) ∧
    update_record_response
      (Json.obj [("id", Json.str i), ("message", Json.str m)]) =
      .error (i ++ ": " ++ m) ∧
    create_record_response
      (Json.obj [("id", Json.str i), ("message", Json.str m)]) =
      .error (i ++ ": " ++ m) ∧
    get_records_response
      (Json.obj [("id", Json.str i), ("message", Json.str m)]) =
      .error (i ++ ": " ++ m) ∧
    strContains (i ++ ": " ++ m) i = true ∧
    strContains (i ++ ": " ++ m) m = true :=
  ⟨rfl, rfl, rfl, rfl, rfl, strContains_of_first_str i ": " m,
    strContains_of_suffix_str (i ++ ": ") m⟩

end DoDyndns
